import Mathlib

/-!
Verification of the Portfolio Builder core engine (`backend.py`).

The two public operations, `generate_portfolio` and `deploy_to_github`, are
shallowly embedded here.  Strings are modelled as `List Char`; the Python
string helpers used by the code (`str.strip`, `str.splitlines`, `str.join`)
are reproduced for that representation.  Network effects are modelled by an
explicit environment record giving the outcome of each remote call, and every
embedded operation additionally returns the list of remote calls it performed,
in order, so that "before any network call" and "no subsequent step executes"
become statements about that trace.
-/

set_option maxRecDepth 8000

abbrev Str := List Char

/-- Whitespace as recognised by Python's `str.isspace` (hence by `str.strip`
with no arguments): the six ASCII whitespace characters plus the Unicode
whitespace code points. -/
def isPySpace (c : Char) : Bool :=
  c = ' ' || c = '\t' || c = '\n' || c = '\r' || c.toNat = 0xb || c.toNat = 0xc ||
  (0x1c ≤ c.toNat && c.toNat ≤ 0x1f) || c.toNat = 0x85 || c.toNat = 0xa0 ||
  c.toNat = 0x1680 || (0x2000 ≤ c.toNat && c.toNat ≤ 0x200a) ||
  c.toNat = 0x2028 || c.toNat = 0x2029 || c.toNat = 0x202f || c.toNat = 0x205f ||
  c.toNat = 0x3000

/-- Python `str.strip()` with no arguments: drop leading and trailing
whitespace. -/
def pyStrip (l : Str) : Str :=
  ((l.dropWhile isPySpace).reverse.dropWhile isPySpace).reverse

/-- Line boundaries recognised by Python's `str.splitlines`:
LF, CR (a CR LF pair counts as one boundary), VT, FF, FS, GS, RS, NEL,
LINE SEPARATOR and PARAGRAPH SEPARATOR. -/
def isLineBreak (c : Char) : Bool :=
  c = '\n' || c = '\r' || c.toNat = 0xb || c.toNat = 0xc ||
  c.toNat = 0x1c || c.toNat = 0x1d || c.toNat = 0x1e || c.toNat = 0x85 ||
  c.toNat = 0x2028 || c.toNat = 0x2029

/-- Worker for `pySplitlines`; `acc` holds the current line reversed. -/
def splitlinesGo : Str → Str → List Str
  | [], acc => [acc.reverse]
  | '\r' :: '\n' :: rest, acc =>
      acc.reverse :: (if rest = [] then [] else splitlinesGo rest [])
  | c :: rest, acc =>
      if isLineBreak c then
        acc.reverse :: (if rest = [] then [] else splitlinesGo rest [])
      else
        splitlinesGo rest (c :: acc)

/-- Python `str.splitlines()`: split at line boundaries; a trailing boundary
does not produce an extra empty line, and the empty string yields no lines. -/
def pySplitlines (l : Str) : List Str :=
  if l = [] then [] else splitlinesGo l []

/-- Python `sep.join(items)`. -/
def pyJoin (sep : Str) : List Str → Str
  | [] => []
  | [x] => x
  | x :: xs => x ++ sep ++ pyJoin sep xs

/-- Decimal rendering of a natural number, as Python's `str(int)` for
non-negative values. -/
def natStr (n : Nat) : Str := (Nat.repr n).data

/-- The backquote character (U+0060), used by markdown code fences. -/
def backquote : Char := Char.ofNat 96

/-- A markdown fence marker: three backquotes. -/
def fenceEnd : Str := [backquote, backquote, backquote]

/-- ASCII letters, the character class of the language tag in the fence
pattern of `_strip_markdown_fences`. -/
def isAsciiAlpha (c : Char) : Bool :=
  ('a' ≤ c && c ≤ 'z') || ('A' ≤ c && c ≤ 'Z')

/-! Constants of `backend.py`. -/

def GEMINI_MODEL : Str := "gemini-2.0-flash".data

def MAX_OUTPUT_TOKENS : Nat := 8192

def REPO_NAME_PREFIX : Str := "portfolio-builder".data

def PAGES_BRANCH : Str := "main".data

def COMMIT_MESSAGE : Str := "🚀 Deploy portfolio via Portfolio Builder".data

/-!
Embedding of `_strip_markdown_fences`.

The source applies `re.match(r"^```[a-zA-Z]*\n([\s\S]*?)```\s*$", text.strip())`
and returns group 1 on a match, the original `text` otherwise.  On the
stripped input `s` (which has no leading or trailing whitespace) the pattern
matches exactly when `s` begins with three backquotes, followed by a maximal
run of ASCII letters (the optional language tag; backtracking cannot shorten
the run because the character after a shorter run would be a letter, not a
newline), followed by a newline, and ends with three backquotes; because `s`
has no trailing whitespace, `` ```\s*$ `` can only match with `\s*` empty, at
the very end, so the lazy group 1 is everything strictly between the opening
fence line and the final three backquotes.
-/

/-- Continuation of the fence pattern after the optional language tag: a
newline, then a body whose final three characters are the closing fence;
the captured group is the body without the closing fence. -/
def fenceTail : Str → Option Str
  | [] => none
  | c :: body =>
    if c = '\n' then
      if 3 ≤ body.length ∧ body.drop (body.length - 3) = fenceEnd then
        some (body.take (body.length - 3))
      else none
    else none

/-- Result of matching the fence pattern against the stripped text: the
captured group 1 on success, `none` when the pattern does not match. -/
def fenceMatch (text : Str) : Option Str :=
  if (pyStrip text).take 3 = fenceEnd then
    fenceTail (((pyStrip text).drop 3).dropWhile isAsciiAlpha)
  else none

/-- Embedding of `_strip_markdown_fences`: the captured inner content when the
pattern matches the stripped text, the input unchanged otherwise. -/
def _strip_markdown_fences (text : Str) : Str :=
  match fenceMatch text with
  | some inner => inner
  | none => text

/-- Modelled from the spec: the trimmed text is entirely wrapped in a single
fenced code block — an opening fence with an optional ASCII-letter language
tag ending the first line, an inner content, and a closing fence ending the
text. -/
def IsWrapped (t : Str) : Prop :=
  ∃ lang body, (∀ c ∈ lang, isAsciiAlpha c = true) ∧
    pyStrip t = fenceEnd ++ (lang ++ '\n' :: (body ++ fenceEnd))

/-!
Embedding of the prompt construction inside `generate_portfolio`.

A `user_data` dictionary is modelled as a record of optional fields: a `none`
field is one absent from the dictionary, and `Option.getD` models
`dict.get(key, default)`.
-/

structure UserData where
  bio : Option Str
  links : Option Str
  color_theme : Option Str
  layout_style : Option Str
  aesthetic_notes : Option Str

/-- The dictionary with none of the five profile fields present. -/
def emptyUserData : UserData := ⟨none, none, none, none, none⟩

/-- Embedding of the `links_formatted` expression of `generate_portfolio`:
join, with newlines, one bullet per line of the links field whose stripped
form is non-empty; Python's `or` replaces an empty join with the literal
fallback. -/
def links_formatted (links : Str) : Str :=
  let joined := pyJoin "\n".data
    (((pySplitlines links).filter fun u => pyStrip u ≠ []).map
      fun u => "  • ".data ++ pyStrip u)
  if joined = [] then "  (none provided)".data else joined

/-- Modelled from the spec: one bullet line per non-blank input line with the
URL trimmed of surrounding whitespace, and the literal "(none provided)"
marker when the links field has no non-blank line. -/
def linksSpecFmt (links : Str) : Str :=
  match (pySplitlines links).filter (fun u => pyStrip u ≠ []) with
  | [] => "  (none provided)".data
  | us => pyJoin "\n".data (us.map fun u => "  • ".data ++ pyStrip u)

/-- Embedding of the `Extra Notes` field rendering:
`user_data.get("aesthetic_notes", "").strip() or "(none)"`. -/
def notesRendered (d : UserData) : Str :=
  if pyStrip (d.aesthetic_notes.getD []) = [] then "(none)".data
  else pyStrip (d.aesthetic_notes.getD [])

/-- Embedding of the `user_prompt` f-string of `generate_portfolio`, with the
final `.strip()` applied to the whole literal. -/
def user_prompt (d : UserData) : Str :=
  pyStrip (
    "\nCreate a complete, single-file HTML portfolio website for the following person.\n\n=== BIO ===\n".data
    ++ pyStrip (d.bio.getD [])
    ++ "\n\n=== LINKS ===\n".data
    ++ links_formatted (d.links.getD [])
    ++ "\n\n=== DESIGN PREFERENCES ===\nColor Theme  : ".data
    ++ d.color_theme.getD "Dark & Minimal".data
    ++ "\nLayout Style : ".data
    ++ d.layout_style.getD "Single Page".data
    ++ "\nExtra Notes  : ".data
    ++ notesRendered d
    ++ "\n\n=== REQUIREMENTS ===\n1. Use Tailwind CSS (CDN) for utility classes.\n2. Add tasteful CSS animations / transitions (scroll-reveal, hover effects).\n3. Include a hero section, about section, links/contact section.\n4. All images should be replaced with elegant SVG illustrations or CSS art —\n   do not embed base64 blobs.\n5. Output ONLY the HTML — nothing else.\n".data)

/-- The dictionary `d` with every absent field replaced by the default that
`generate_portfolio` reads it with. -/
def fillDefaults (d : UserData) : UserData :=
  ⟨some (d.bio.getD []),
   some (d.links.getD []),
   some (d.color_theme.getD "Dark & Minimal".data),
   some (d.layout_style.getD "Single Page".data),
   some (d.aesthetic_notes.getD [])⟩

/-!
Embedding of `generate_portfolio`.

The single remote call (`model.generate_content`) is modelled by an
environment field: `Except.error ()` when the call raises, `Except.ok none`
when it returns but `response.text` raises (no usable content), and
`Except.ok (some raw)` when text is extractable.  The result of the embedded
function carries the list of remote calls performed.
-/

/-- Outcome of the one remote generation call. -/
structure GenEnv where
  response : Except Unit (Option Str)

/-- Remote calls `generate_portfolio` can perform. -/
inductive GenCall : Type
  | generateContent (prompt : Str)
deriving DecidableEq

/-- Python exception classes that the two embedded operations can raise.
`githubError` stands for a `GithubException` escaping uncaught. -/
inductive PyErr : Type
  | valueError (msg : Str)
  | permissionError (msg : Str)
  | runtimeError (msg : Str)
  | githubError (status : Nat)
deriving DecidableEq

/-- Embedding of `generate_portfolio`: guard the key, call the model once,
extract the text, strip accidental markdown fences, reject an empty result. -/
def generate_portfolio (api_key : Str) (user_data : UserData) (env : GenEnv) :
    Except PyErr Str × List GenCall :=
  if pyStrip api_key = [] then
    (.error (.valueError "Gemini API key must not be empty.".data), [])
  else
    match env.response with
    | .error _ =>
        (.error (.runtimeError "Gemini API call failed.".data),
         [.generateContent (user_prompt user_data)])
    | .ok none =>
        (.error (.valueError "Gemini returned no usable content.".data),
         [.generateContent (user_prompt user_data)])
    | .ok (some raw) =>
        if pyStrip (_strip_markdown_fences raw) = [] then
          (.error (.valueError "Gemini returned an empty HTML response.".data),
           [.generateContent (user_prompt user_data)])
        else
          (.ok (_strip_markdown_fences raw),
           [.generateContent (user_prompt user_data)])

/-!
Embedding of `deploy_to_github` and its helpers.

Each remote call's outcome is a field of `GhEnv`; `GhExc` is a
`GithubException` with its HTTP status.  The embedded functions return,
besides their result, the ordered list of remote calls performed (`GhCall`),
so that ordering and "step never executes" claims are statements about the
trace.  Error messages keep the fixed texts of the source; the interpolated
exception details are not modelled.
-/

/-- A `GithubException`, identified by its HTTP status. -/
structure GhExc where
  status : Nat
deriving DecidableEq

/-- Outcomes of the remote calls `deploy_to_github` can perform.
`login` is the `auth_user.login` fetch (the actual auth check), `repos` the
repository listing of `_unique_repo_name`, `getContents` yields the sha of
the existing file on success. -/
structure GhEnv where
  login : Except GhExc Str
  repos : Except GhExc (List Str)
  createRepo : Except GhExc Unit
  getContents : Except GhExc Str
  updateFile : Except GhExc Unit
  createFile : Except GhExc Unit
  enablePages : Except GhExc Unit
  now : Nat

/-- Remote calls of the publish flow, in the order the source performs them;
`sleep` records the fixed post-creation delay. -/
inductive GhCall : Type
  | getLogin
  | listRepos
  | createRepo (name : Str)
  | sleep (secs : Nat)
  | getContents (path : Str) (ref : Str)
  | updateFile (path : Str) (sha : Str) (branch : Str)
  | createFile (path : Str) (branch : Str)
  | enablePages (branch : Str) (path : Str)
deriving DecidableEq

/-- Embedding of `_push_file`: fetch the existing file; on success update it
with its sha; on a 404 from the `try` block create it; re-raise any other
`GithubException`.  The `try` block covers both the fetch and the update, so
a 404 raised by the update also falls into the create branch, as in the
source. -/
def _push_file (env : GhEnv) (file_path : Str) (content : Str)
    (commit_message : Str) (branch : Str) :
    Except GhExc Unit × List GhCall :=
  match env.getContents with
  | .ok sha =>
    match env.updateFile with
    | .ok _ =>
        (.ok (), [.getContents file_path branch, .updateFile file_path sha branch])
    | .error e =>
      if e.status = 404 then
        match env.createFile with
        | .ok _ =>
            (.ok (), [.getContents file_path branch, .updateFile file_path sha branch,
                      .createFile file_path branch])
        | .error e2 =>
            (.error e2, [.getContents file_path branch, .updateFile file_path sha branch,
                         .createFile file_path branch])
      else
        (.error e, [.getContents file_path branch, .updateFile file_path sha branch])
  | .error e =>
    if e.status = 404 then
      match env.createFile with
      | .ok _ => (.ok (), [.getContents file_path branch, .createFile file_path branch])
      | .error e2 => (.error e2, [.getContents file_path branch, .createFile file_path branch])
    else
      (.error e, [.getContents file_path branch])

/-- Worker embedding the probe loop of `_unique_repo_name`.  The Python loop
`for i in range(2, 100)` performs exactly 98 iterations, each checking the
current candidate and then setting the next candidate to `pfx-i`; `fuel`
counts the remaining iterations (98 at entry, and the loop index is `i`),
and the zero-fuel case is the post-loop timestamp fallback. -/
def uniqueRepoGo (existing : List Str) (pfx : Str) (now : Nat) :
    Nat → Nat → Str → Str
  | 0, _, _ => pfx ++ '-' :: natStr now
  | fuel + 1, i, candidate =>
      if candidate ∈ existing then
        uniqueRepoGo existing pfx now fuel (i + 1) (pfx ++ '-' :: natStr i)
      else candidate

/-- Embedding of `_unique_repo_name`: probe `pfx` and then `pfx-i` for
successive `i`, returning the first name absent from the existing names,
with a timestamp fallback after the loop. -/
def _unique_repo_name (existing : List Str) (pfx : Str) (now : Nat) : Str :=
  uniqueRepoGo existing pfx now 98 2 pfx

/-- Embedding of `deploy_to_github`: guard the inputs, authenticate, resolve
a repository name, create the repository, wait, push `index.html`, attempt to
enable Pages (swallowing its failure), and return the Pages URL. -/
def deploy_to_github (github_token html_code : Str) (env : GhEnv) :
    Except PyErr Str × List GhCall :=
  if pyStrip github_token = [] then
    (.error (.valueError "GitHub token must not be empty.".data), [])
  else if pyStrip html_code = [] then
    (.error (.valueError "html_code must not be empty.".data), [])
  else
    match env.login with
    | .error exc =>
      if exc.status = 401 then
        (.error (.permissionError "GitHub token is invalid or expired (401 Unauthorized).".data),
         [.getLogin])
      else
        (.error (.runtimeError "GitHub authentication failed.".data), [.getLogin])
    | .ok username =>
      match env.repos with
      | .error exc => (.error (.githubError exc.status), [.getLogin, .listRepos])
      | .ok names =>
        match env.createRepo with
        | .error exc =>
          if exc.status = 422 then
            (.error (.runtimeError "Repository already exists or the name is invalid.".data),
             [.getLogin, .listRepos,
              .createRepo (_unique_repo_name names REPO_NAME_PREFIX env.now)])
          else
            (.error (.runtimeError "Failed to create repository.".data),
             [.getLogin, .listRepos,
              .createRepo (_unique_repo_name names REPO_NAME_PREFIX env.now)])
        | .ok _ =>
          match _push_file env "index.html".data html_code COMMIT_MESSAGE PAGES_BRANCH with
          | (.error _, pcalls) =>
            (.error (.runtimeError "Failed to push index.html.".data),
             [.getLogin, .listRepos,
              .createRepo (_unique_repo_name names REPO_NAME_PREFIX env.now),
              .sleep 2] ++ pcalls)
          | (.ok _, pcalls) =>
            match env.enablePages with
            | .error _ =>
              (.ok ("https://".data ++ username ++ ".github.io/".data ++
                    _unique_repo_name names REPO_NAME_PREFIX env.now ++ "/".data),
               [.getLogin, .listRepos,
                .createRepo (_unique_repo_name names REPO_NAME_PREFIX env.now),
                .sleep 2] ++ pcalls ++ [.enablePages PAGES_BRANCH "/".data])
            | .ok _ =>
              (.ok ("https://".data ++ username ++ ".github.io/".data ++
                    _unique_repo_name names REPO_NAME_PREFIX env.now ++ "/".data),
               [.getLogin, .listRepos,
                .createRepo (_unique_repo_name names REPO_NAME_PREFIX env.now),
                .sleep 2] ++ pcalls ++ [.enablePages PAGES_BRANCH "/".data])

/-!
Auxiliary definitions used by the statements below: the candidate list the
probe loop inspects, and concrete environments and repository-name lists for
witnesses and counterexamples.
-/

/-- The candidates inspected by `uniqueRepoGo` from a given loop state:
the current candidate, then the candidates built from successive loop
indices. -/
def probeNames (pfx : Str) : Nat → Nat → Str → List Str
  | 0, _, _ => []
  | fuel + 1, i, c => c :: probeNames pfx fuel (i + 1) (pfx ++ '-' :: natStr i)

/-- The 98 candidate names `_unique_repo_name` actually checks, in order:
the bare name and then the suffixed names for counters 2 through 98. -/
def probedCandidates (pfx : Str) : List Str :=
  pfx :: (List.range' 2 97).map (fun j => pfx ++ '-' :: natStr j)

/-- Existing-name set for the C1 counterexample: every probed candidate is
taken and the timestamp fallback name is also taken. -/
def exListC1 : List Str :=
  probedCandidates "portfolio-builder".data ++ ["portfolio-builder-1700000000".data]

/-- Existing-name set for the C3 counterexample: exactly the 98 probed
candidates are taken, so `portfolio-builder-99` is free. -/
def exListC3 : List Str :=
  probedCandidates "portfolio-builder".data

/-- Environment in which every remote call of the publish flow succeeds
(the file fetch returns 404, so the file is created). -/
def ghEnvHappy : GhEnv :=
  ⟨.ok "alice".data, .ok [], .ok (), .error ⟨404⟩, .ok (), .ok (), .ok (), 0⟩

/-- Environment whose identity fetch is rejected with status 401. -/
def ghEnv401 : GhEnv :=
  ⟨.error ⟨401⟩, .ok [], .ok (), .error ⟨404⟩, .ok (), .ok (), .ok (), 0⟩

/-- Environment in which everything succeeds except Pages enablement, which
fails with status 500. -/
def ghEnvPagesFail : GhEnv :=
  ⟨.ok "alice".data, .ok [], .ok (), .error ⟨404⟩, .ok (), .ok (), .error ⟨500⟩, 0⟩

/-- Environment in which the file fetch fails with status 500. -/
def ghEnvFetch500 : GhEnv :=
  ⟨.ok "alice".data, .ok [], .ok (), .error ⟨500⟩, .ok (), .ok (), .ok (), 0⟩

/-- Environment for the generation flow whose remote call returns raw text. -/
def genEnvOk : GenEnv := ⟨.ok (some "<html></html>".data)⟩

/-! Helper lemmas. -/

theorem dropWhile_append_all {p : Char → Bool} :
    ∀ (l r : Str), (∀ c ∈ l, p c = true) → (l ++ r).dropWhile p = r.dropWhile p
  | [], _, _ => rfl
  | c :: l, r, h => by
    have hc : p c = true := h c (List.mem_cons_self c l)
    rw [List.cons_append, List.dropWhile_cons, if_pos hc]
    exact dropWhile_append_all l r fun x hx => h x (List.mem_cons_of_mem c hx)

theorem uniqueRepoGo_not_mem_or_fallback (existing : List Str) (pfx : Str) (now : Nat) :
    ∀ (fuel i : Nat) (c : Str),
      uniqueRepoGo existing pfx now fuel i c ∉ existing ∨
      uniqueRepoGo existing pfx now fuel i c = pfx ++ '-' :: natStr now
  | 0, _, _ => Or.inr rfl
  | fuel + 1, i, c => by
    simp only [uniqueRepoGo]
    by_cases h : c ∈ existing
    · rw [if_pos h]
      exact uniqueRepoGo_not_mem_or_fallback existing pfx now fuel (i + 1) _
    · rw [if_neg h]
      exact Or.inl h

theorem uniqueRepoGo_eq_find? (existing : List Str) (pfx : Str) (now : Nat) :
    ∀ (fuel i : Nat) (c : Str),
      uniqueRepoGo existing pfx now fuel i c =
        ((probeNames pfx fuel i c).find? fun x => decide (x ∉ existing)).getD
          (pfx ++ '-' :: natStr now)
  | 0, _, _ => rfl
  | fuel + 1, i, c => by
    simp only [uniqueRepoGo, probeNames]
    by_cases h : c ∈ existing
    · rw [if_pos h, List.find?_cons_of_neg _ (by simp [h])]
      exact uniqueRepoGo_eq_find? existing pfx now fuel (i + 1) _
    · rw [if_neg h, List.find?_cons_of_pos _ (by simp [h])]
      rfl

theorem probeNames_succ_eq (pfx : Str) :
    ∀ (fuel i : Nat) (c : Str),
      probeNames pfx (fuel + 1) i c =
        c :: (List.range' i fuel).map (fun j => pfx ++ '-' :: natStr j)
  | 0, _, _ => rfl
  | fuel + 1, i, c => by
    rw [List.range'_succ, List.map_cons]
    show c :: probeNames pfx (fuel + 1) (i + 1) (pfx ++ '-' :: natStr i) = _
    rw [probeNames_succ_eq pfx fuel (i + 1) (pfx ++ '-' :: natStr i)]

theorem pyJoin_cons_ne_nil (sep x : Str) (xs : List Str) (hx : x ≠ []) :
    pyJoin sep (x :: xs) ≠ [] := by
  cases xs with
  | nil => simpa [pyJoin] using hx
  | cons y ys => simp [pyJoin, List.append_eq_nil, hx]

theorem fenceMatch_some_of_wrapped (t lang body : Str)
    (hl : ∀ c ∈ lang, isAsciiAlpha c = true)
    (ht : pyStrip t = fenceEnd ++ (lang ++ '\n' :: (body ++ fenceEnd))) :
    fenceMatch t = some body := by
  have hlen : (body ++ fenceEnd).length = body.length + 3 := by
    rw [List.length_append]; rfl
  have hdrop : (body ++ fenceEnd).drop ((body ++ fenceEnd).length - 3) = fenceEnd := by
    rw [hlen, Nat.add_sub_cancel, List.drop_left]
  have htake2 : (body ++ fenceEnd).take ((body ++ fenceEnd).length - 3) = body := by
    rw [hlen, Nat.add_sub_cancel, List.take_left]
  have hcond : 3 ≤ (body ++ fenceEnd).length ∧
      (body ++ fenceEnd).drop ((body ++ fenceEnd).length - 3) = fenceEnd :=
    ⟨by rw [hlen]; omega, hdrop⟩
  unfold fenceMatch
  rw [ht, List.take_left' (by rfl : fenceEnd.length = 3),
      List.drop_left' (by rfl : fenceEnd.length = 3),
      dropWhile_append_all lang ('\n' :: (body ++ fenceEnd)) hl,
      List.dropWhile_cons, if_neg (by decide : ¬(isAsciiAlpha '\n' = true))]
  simp only [fenceTail]
  simp [hcond, htake2]
  have hfe : fenceEnd.length = 3 := rfl
  have h3 : List.length body + List.length fenceEnd - 3 = List.length body := by omega
  refine ⟨⟨by omega, ?_⟩, ?_⟩
  · rw [h3, List.drop_left]
  · rw [h3, List.take_left]

theorem wrapped_of_fenceMatch (t b : Str) (h : fenceMatch t = some b) : IsWrapped t := by
  unfold fenceMatch at h
  by_cases h3 : (pyStrip t).take 3 = fenceEnd
  · rw [if_pos h3] at h
    cases hdw : ((pyStrip t).drop 3).dropWhile isAsciiAlpha with
    | nil => rw [hdw] at h; simp [fenceTail] at h
    | cons c body =>
      rw [hdw] at h
      simp only [fenceTail] at h
      by_cases hc : c = '\n'
      · rw [if_pos hc] at h
        by_cases hcond : 3 ≤ body.length ∧ body.drop (body.length - 3) = fenceEnd
        · rw [if_pos hcond] at h
          have hb : b = body.take (body.length - 3) := by
            simpa using h.symm
          have hbody : body = b ++ fenceEnd := by
            rw [hb]
            conv_lhs => rw [← List.take_append_drop (body.length - 3) body]
            rw [hcond.2]
          have hdw2 : (pyStrip t).drop 3 =
              ((pyStrip t).drop 3).takeWhile isAsciiAlpha ++ (c :: body) := by
            conv_lhs =>
              rw [← List.takeWhile_append_dropWhile isAsciiAlpha ((pyStrip t).drop 3)]
            rw [hdw]
          refine ⟨((pyStrip t).drop 3).takeWhile isAsciiAlpha, b,
            fun x hx => List.mem_takeWhile_imp hx, ?_⟩
          conv_lhs => rw [← List.take_append_drop 3 (pyStrip t)]
          rw [h3]
          conv_lhs => rw [hdw2]
          rw [hc, hbody]
        · rw [if_neg hcond] at h; simp at h
      · rw [if_neg hc] at h; simp at h
  · rw [if_neg h3] at h; simp at h

/-! Claim theorems. -/

/-- C1 (amended): for every set of existing repository names, the name
resolved by `_unique_repo_name` is either absent from the set or is the
timestamp fallback name `pfx-<now>`, which the code returns without checking
it against the set; and for the existing-names set
{"portfolio-builder", "portfolio-builder-2"} the resolution returns exactly
"portfolio-builder-3" (for every timestamp). -/
theorem unique_repo_name_fresh_or_timestamp :
    (∀ (existing : List Str) (pfx : Str) (now : Nat),
        _unique_repo_name existing pfx now ∉ existing ∨
        _unique_repo_name existing pfx now = pfx ++ '-' :: natStr now)
  ∧ (∀ now : Nat,
        _unique_repo_name ["portfolio-builder".data, "portfolio-builder-2".data]
          "portfolio-builder".data now = "portfolio-builder-3".data) := by
  constructor
  · intro existing pfx now
    exact uniqueRepoGo_not_mem_or_fallback existing pfx now 98 2 pfx
  · intro now
    rfl

set_option maxHeartbeats 1000000 in
/-- C1 counterexample: when every probed candidate and the timestamp fallback
name are all among the existing names, `_unique_repo_name` returns a name
that is a member of the supplied existing-names set, refuting the claim that
the resolved name is never a member of that set. -/
theorem unique_repo_name_fresh_cex :
    _unique_repo_name exListC1 "portfolio-builder".data 1700000000 ∈ exListC1 := by
  decide

/-- C3 (amended): name resolution probes, in order, "portfolio-builder" and
then "portfolio-builder-2" through "portfolio-builder-98" — 98 candidates,
the numeric suffixes being `List.range' 2 97 = [2, …, 98]` — returning the
first candidate absent from the existing-names set, and falls back to the
timestamp name when all 98 are taken; "portfolio-builder-99" is never
probed. -/
theorem unique_repo_name_probe_order (existing : List Str) (pfx : Str) (now : Nat) :
    _unique_repo_name existing pfx now =
      ((pfx :: (List.range' 2 97).map fun j => pfx ++ '-' :: natStr j).find?
          (fun x => decide (x ∉ existing))).getD (pfx ++ '-' :: natStr now) := by
  have h := uniqueRepoGo_eq_find? existing pfx now 98 2 pfx
  rw [_unique_repo_name, h, probeNames_succ_eq]

set_option maxHeartbeats 1000000 in
/-- C3 counterexample: on the set holding exactly the names "portfolio-builder"
and "portfolio-builder-2" through "portfolio-builder-98", the code returns the
timestamp fallback even though "portfolio-builder-99" is absent from the set,
refuting the claim that candidates up to and including "portfolio-builder-99"
are probed before the fallback. -/
theorem unique_repo_name_probe_cex :
    _unique_repo_name exListC3 "portfolio-builder".data 1700000000 =
      "portfolio-builder-1700000000".data ∧
    "portfolio-builder-99".data ∉ exListC3 ∧
    "portfolio-builder-1700000000".data ≠ "portfolio-builder-99".data := by
  refine ⟨by decide, by decide, by decide⟩

/-- C2 (amended): fence stripping returns its input unchanged when the
trimmed input is not entirely wrapped in a single fenced code block; when the
trimmed input is entirely wrapped in one fenced block (with or without a
language tag) it returns exactly the inner content, with the wrapping fence
markers removed; and applying it twice equals applying it once on every
input whose first result is not itself entirely wrapped in a fenced block
(full idempotency fails: one application removes exactly one wrapper
layer). -/
theorem strip_markdown_fences_behavior (t : Str) :
    (¬ IsWrapped t → _strip_markdown_fences t = t)
  ∧ (∀ lang body, (∀ c ∈ lang, isAsciiAlpha c = true) →
      pyStrip t = fenceEnd ++ (lang ++ '\n' :: (body ++ fenceEnd)) →
      _strip_markdown_fences t = body)
  ∧ (¬ IsWrapped (_strip_markdown_fences t) →
      _strip_markdown_fences (_strip_markdown_fences t) = _strip_markdown_fences t) := by
  have h1 : ∀ s : Str, ¬ IsWrapped s → _strip_markdown_fences s = s := by
    intro s hs
    unfold _strip_markdown_fences
    cases hm : fenceMatch s with
    | none => rfl
    | some b => exact absurd (wrapped_of_fenceMatch s b hm) hs
  refine ⟨h1 t, ?_, fun h => h1 _ h⟩
  intro lang body hl ht
  unfold _strip_markdown_fences
  rw [fenceMatch_some_of_wrapped t lang body hl ht]

/-- C2 witness: on a response wholly wrapped in a fenced block with language
tag "html", stripping returns exactly the inner content. -/
theorem strip_markdown_fences_behavior_witness :
    _strip_markdown_fences "```html\nhi\n```".data = "hi\n".data :=
  (strip_markdown_fences_behavior "```html\nhi\n```".data).2.1
    ['h', 't', 'm', 'l'] "hi\n".data (by decide) (by decide)

/-- C2 counterexample: fence stripping is not idempotent — on a response
whose fenced block wraps another fenced block, the first application returns
the inner fenced block and a second application strips it again, so applying
the operation twice differs from applying it once. -/
theorem strip_markdown_fences_not_idempotent :
    _strip_markdown_fences (_strip_markdown_fences "```\n```html\nhi\n```\n```".data) ≠
      _strip_markdown_fences "```\n```html\nhi\n```\n```".data := by
  decide

/-- C4: a blank (empty or all-whitespace) API key makes `generate_portfolio`
raise ValueError with no remote call performed, and a blank GitHub token or
blank HTML code makes `deploy_to_github` raise ValueError with no remote
call performed. -/
theorem blank_inputs_rejected (api_key : Str) (d : UserData) (genv : GenEnv)
    (tok html : Str) (env : GhEnv) :
    (pyStrip api_key = [] →
      generate_portfolio api_key d genv =
        (.error (.valueError "Gemini API key must not be empty.".data), []))
  ∧ (pyStrip tok = [] →
      deploy_to_github tok html env =
        (.error (.valueError "GitHub token must not be empty.".data), []))
  ∧ (pyStrip tok ≠ [] → pyStrip html = [] →
      deploy_to_github tok html env =
        (.error (.valueError "html_code must not be empty.".data), [])) := by
  refine ⟨fun h => ?_, fun h => ?_, fun h h2 => ?_⟩
  · simp [generate_portfolio, h]
  · simp [deploy_to_github, h]
  · simp [deploy_to_github, h, h2]

/-- C4 witness: an all-whitespace API key, an empty token, and a nonblank
token with all-whitespace HTML are all rejected with ValueError and an empty
call trace. -/
theorem blank_inputs_rejected_witness :
    (generate_portfolio " ".data emptyUserData genEnvOk =
      (.error (.valueError "Gemini API key must not be empty.".data), []))
  ∧ (deploy_to_github "".data "<p>hi</p>".data ghEnvHappy =
      (.error (.valueError "GitHub token must not be empty.".data), []))
  ∧ (deploy_to_github "tok".data " \t".data ghEnvHappy =
      (.error (.valueError "html_code must not be empty.".data), [])) :=
  ⟨(blank_inputs_rejected " ".data emptyUserData genEnvOk "".data "<p>hi</p>".data
      ghEnvHappy).1 (by decide),
   (blank_inputs_rejected " ".data emptyUserData genEnvOk "".data "<p>hi</p>".data
      ghEnvHappy).2.1 (by decide),
   (blank_inputs_rejected " ".data emptyUserData genEnvOk "tok".data " \t".data
      ghEnvHappy).2.2 (by decide) (by decide)⟩

/-- C5: if the identity fetch of `deploy_to_github` fails, a 401 status maps
to PermissionError and any other status to RuntimeError, and in both cases
the identity fetch is the only remote call performed — no listing, creation,
push, or pages step executes. -/
theorem deploy_auth_failure (tok html : Str) (env : GhEnv) (exc : GhExc)
    (h1 : pyStrip tok ≠ []) (h2 : pyStrip html ≠ []) (hl : env.login = .error exc) :
    (exc.status = 401 →
      deploy_to_github tok html env =
        (.error (.permissionError
          "GitHub token is invalid or expired (401 Unauthorized).".data),
         [.getLogin]))
  ∧ (exc.status ≠ 401 →
      deploy_to_github tok html env =
        (.error (.runtimeError "GitHub authentication failed.".data),
         [.getLogin])) := by
  constructor <;> intro hs
  · simp [deploy_to_github, h1, h2, hl, hs]
  · simp [deploy_to_github, h1, h2, hl, hs]

/-- C5 witness: with a 401 rejection of the identity fetch, the deployment
raises PermissionError after performing only the identity fetch. -/
theorem deploy_auth_failure_witness :
    deploy_to_github "tok".data "<p>hi</p>".data ghEnv401 =
      (.error (.permissionError
        "GitHub token is invalid or expired (401 Unauthorized).".data),
       [.getLogin]) :=
  (deploy_auth_failure "tok".data "<p>hi</p>".data ghEnv401 ⟨401⟩
    (by decide) (by decide) rfl).1 rfl

/-- C6: in the file-upload step, a 404 from the file fetch leads to a
create-file call and never an update-file call; a successful fetch leads to
an update-file call carrying the fetched file's sha; a fetch failure with
any other status is re-raised by `_push_file` after the fetch alone, and
propagates out of `deploy_to_github` as RuntimeError with no create-file
call in the whole call trace. -/
theorem push_file_fetch_dispatch (env : GhEnv) (p c m b : Str) (tok html : Str) :
    (∀ e, env.getContents = .error e → e.status = 404 →
        GhCall.createFile p b ∈ (_push_file env p c m b).2 ∧
        ∀ sha, GhCall.updateFile p sha b ∉ (_push_file env p c m b).2)
  ∧ (∀ sha, env.getContents = .ok sha →
        GhCall.updateFile p sha b ∈ (_push_file env p c m b).2)
  ∧ (∀ e, env.getContents = .error e → e.status ≠ 404 →
        _push_file env p c m b = (.error e, [.getContents p b]))
  ∧ (∀ e u rs, pyStrip tok ≠ [] → pyStrip html ≠ [] →
        env.login = .ok u → env.repos = .ok rs → env.createRepo = .ok () →
        env.getContents = .error e → e.status ≠ 404 →
        deploy_to_github tok html env =
          (.error (.runtimeError "Failed to push index.html.".data),
           [.getLogin, .listRepos,
            .createRepo (_unique_repo_name rs REPO_NAME_PREFIX env.now),
            .sleep 2, .getContents "index.html".data PAGES_BRANCH]) ∧
        (∀ pp bb, GhCall.createFile pp bb ∉ (deploy_to_github tok html env).2)) := by
  refine ⟨fun e he h404 => ?_, fun sha hok => ?_, fun e he hne => ?_,
    fun e u rs h1 h2 hl hr hc he hne => ?_⟩
  · cases hcf : env.createFile <;> simp [_push_file, he, h404, hcf]
  · cases hu : env.updateFile with
    | ok _ => simp [_push_file, hok, hu]
    | error e =>
      by_cases h404 : e.status = 404
      · cases hcf : env.createFile <;> simp [_push_file, hok, hu, h404, hcf]
      · simp [_push_file, hok, hu, h404]
  · simp [_push_file, he, hne]
  · have hp : _push_file env "index.html".data html COMMIT_MESSAGE PAGES_BRANCH =
        (.error e, [.getContents "index.html".data PAGES_BRANCH]) := by
      simp [_push_file, he, hne]
    constructor
    · simp [deploy_to_github, h1, h2, hl, hr, hc, hp]
    · intro pp bb
      simp [deploy_to_github, h1, h2, hl, hr, hc, hp]

/-- C6 witness: with the file fetch failing with status 500, `_push_file`
re-raises after the fetch alone, and the deployment fails with RuntimeError,
its trace ending at the file fetch with no create-file call. -/
theorem push_file_fetch_dispatch_witness :
    (_push_file ghEnvFetch500 "index.html".data "<p>hi</p>".data COMMIT_MESSAGE
        PAGES_BRANCH =
      (.error ⟨500⟩, [.getContents "index.html".data PAGES_BRANCH]))
  ∧ (deploy_to_github "tok".data "<p>hi</p>".data ghEnvFetch500 =
      (.error (.runtimeError "Failed to push index.html.".data),
       [.getLogin, .listRepos,
        .createRepo (_unique_repo_name [] REPO_NAME_PREFIX ghEnvFetch500.now),
        .sleep 2, .getContents "index.html".data PAGES_BRANCH])) :=
  ⟨(push_file_fetch_dispatch ghEnvFetch500 "index.html".data "<p>hi</p>".data
      COMMIT_MESSAGE PAGES_BRANCH "tok".data "<p>hi</p>".data).2.2.1 ⟨500⟩ rfl
      (by decide),
   ((push_file_fetch_dispatch ghEnvFetch500 "index.html".data "<p>hi</p>".data
      COMMIT_MESSAGE PAGES_BRANCH "tok".data "<p>hi</p>".data).2.2.2 ⟨500⟩
      "alice".data [] (by decide) (by decide) rfl rfl rfl rfl (by decide)).1⟩

/-- C7: when the deployment reaches the pages-enablement step and enabling
Pages fails, the exception is swallowed and `deploy_to_github` still returns
the well-formed hosting URL built from the login and the resolved repository
name. -/
theorem deploy_pages_failure_swallowed (tok html : Str) (env : GhEnv)
    (u : Str) (rs : List Str) (e : GhExc)
    (h1 : pyStrip tok ≠ []) (h2 : pyStrip html ≠ []) (hl : env.login = .ok u)
    (hr : env.repos = .ok rs) (hc : env.createRepo = .ok ())
    (hp : (_push_file env "index.html".data html COMMIT_MESSAGE PAGES_BRANCH).1 =
      .ok ())
    (hep : env.enablePages = .error e) :
    (deploy_to_github tok html env).1 =
      .ok ("https://".data ++ u ++ ".github.io/".data ++
        _unique_repo_name rs REPO_NAME_PREFIX env.now ++ "/".data) := by
  rcases hpp : _push_file env "index.html".data html COMMIT_MESSAGE PAGES_BRANCH
    with ⟨r, tr⟩
  rw [hpp] at hp
  simp only at hp
  subst hp
  simp [deploy_to_github, h1, h2, hl, hr, hc, hpp, hep]

/-- C7 witness: with Pages enablement failing with status 500 and every prior
step succeeding, the deployment still returns the expected hosting URL. -/
theorem deploy_pages_failure_swallowed_witness :
    (deploy_to_github "tok".data "<p>hi</p>".data ghEnvPagesFail).1 =
      .ok ("https://".data ++ "alice".data ++ ".github.io/".data ++
        _unique_repo_name [] REPO_NAME_PREFIX ghEnvPagesFail.now ++ "/".data) :=
  deploy_pages_failure_swallowed "tok".data "<p>hi</p>".data ghEnvPagesFail
    "alice".data [] ⟨500⟩ (by decide) (by decide) rfl rfl rfl rfl rfl

/-- C8: every successful `deploy_to_github` call — on the pages-enabled path
and on the pages-enable-failed path alike — returns exactly the string
"https://" ++ login ++ ".github.io/" ++ resolved-repository-name ++ "/",
where login is the authenticated account login and the repository name is
the one produced by `_unique_repo_name`. -/
theorem deploy_success_url (tok html : Str) (env : GhEnv) (url : Str)
    (tr : List GhCall)
    (h : deploy_to_github tok html env = (.ok url, tr)) :
    ∃ u rs, env.login = .ok u ∧ env.repos = .ok rs ∧
      url = "https://".data ++ u ++ ".github.io/".data ++
        _unique_repo_name rs REPO_NAME_PREFIX env.now ++ "/".data := by
  by_cases h1 : pyStrip tok = []
  · simp [deploy_to_github, h1] at h
  by_cases h2 : pyStrip html = []
  · simp [deploy_to_github, h1, h2] at h
  cases hl : env.login with
  | error e =>
    by_cases he : e.status = 401 <;> simp [deploy_to_github, h1, h2, hl, he] at h
  | ok u =>
    cases hr : env.repos with
    | error e => simp [deploy_to_github, h1, h2, hl, hr] at h
    | ok rs =>
      cases hc : env.createRepo with
      | error e =>
        by_cases he : e.status = 422 <;>
          simp [deploy_to_github, h1, h2, hl, hr, hc, he] at h
      | ok _ =>
        rcases hpp : _push_file env "index.html".data html COMMIT_MESSAGE PAGES_BRANCH
          with ⟨r, ptr⟩
        cases r with
        | error e => simp [deploy_to_github, h1, h2, hl, hr, hc, hpp] at h
        | ok _ =>
          cases hep : env.enablePages with
          | error e =>
            simp [deploy_to_github, h1, h2, hl, hr, hc, hpp, hep] at h
            refine ⟨u, rs, rfl, rfl, ?_⟩
            simpa using h.1.symm
          | ok _ =>
            simp [deploy_to_github, h1, h2, hl, hr, hc, hpp, hep] at h
            refine ⟨u, rs, rfl, rfl, ?_⟩
            simpa using h.1.symm

/-- C8 witness: a fully successful deployment in a concrete environment
returns exactly "https://alice.github.io/portfolio-builder/". -/
theorem deploy_success_url_witness :
    ∃ u rs, ghEnvHappy.login = .ok u ∧ ghEnvHappy.repos = .ok rs ∧
      "https://alice.github.io/portfolio-builder/".data =
        "https://".data ++ u ++ ".github.io/".data ++
          _unique_repo_name rs REPO_NAME_PREFIX ghEnvHappy.now ++ "/".data :=
  deploy_success_url "tok".data "<p>hi</p>".data ghEnvHappy
    "https://alice.github.io/portfolio-builder/".data
    (deploy_to_github "tok".data "<p>hi</p>".data ghEnvHappy).2 rfl

/-- C9: the links section of the per-request prompt is one bullet line per
non-blank input line with the URL trimmed, and the literal "(none provided)"
marker when the links field has no non-blank line — the code-side expression
equals the spec-side formatting on every input. -/
theorem links_formatted_correct (links : Str) :
    links_formatted links = linksSpecFmt links := by
  unfold links_formatted linksSpecFmt
  cases hf : (pySplitlines links).filter (fun u => decide (pyStrip u ≠ [])) with
  | nil => simp [pyJoin]
  | cons u us =>
    rw [List.map_cons]
    rw [if_neg (pyJoin_cons_ne_nil "\n".data _ _ (by
      intro hcontra
      exact absurd (List.append_eq_nil.mp hcontra).1 (by decide)))]
    rfl

/-- C10: prompt construction never fails on a missing profile field — every
absent field is read with its default (empty bio, links and aesthetic notes,
"Dark & Minimal" colour theme, "Single Page" layout), so the prompt built
from any dictionary equals the prompt built from the defaulted dictionary,
and absent aesthetic notes render as "(none)". -/
theorem prompt_missing_fields_defaulted (d : UserData) :
    user_prompt d = user_prompt (fillDefaults d) ∧
    (d.aesthetic_notes = none → notesRendered d = "(none)".data) := by
  obtain ⟨b, l, c, ls, a⟩ := d
  constructor
  · cases b <;> cases l <;> cases c <;> cases ls <;> cases a <;> rfl
  · intro h
    cases a with
    | none => rfl
    | some x => simp at h

/-- C10 witness: on the empty dictionary the aesthetic-notes field renders as
the literal "(none)". -/
theorem prompt_missing_fields_defaulted_witness :
    notesRendered emptyUserData = "(none)".data :=
  (prompt_missing_fields_defaulted emptyUserData).2 rfl
